import Mathlib

/-!
# Verification of the BCRA exchange-rate band projector (`src/app.py`)

Shallow embedding of the band-construction core of `app.py`:

* dates are coded as integer day numbers with day `0 = 2025-04-14`
  (the phase-1 start); so `2025-12-31 = 261` and `2026-01-01 = 262`;
* calendar months (pandas `Period("M")`) are coded as `12 * year + (month - 1)`;
* `float` values are modelled as elements of a linear ordered field `α`
  (instantiated with `ℝ` in the theorems) and Python's `x ** y` as an
  explicit power function `pw : α → α → α` (instantiated with `Real.rpow`);
* a pandas Series/DataFrame is a list of tuples, a missing value (`NaN`) is
  `Option.none`, and code that raises is modelled with `Except`.
-/

namespace BCRA

/-! ## Calendar arithmetic (pandas `date_range` / `to_period("M")`) -/

/-- Gregorian leap-year test, as used by the real calendar underlying
`pd.date_range`. -/
def isLeap (y : ℕ) : Bool := y % 4 == 0 && (y % 100 != 0 || y % 400 == 0)

/-- Number of days of the calendar month coded `μ = 12 * year + (month - 1)`. -/
def daysInMonth (μ : ℕ) : ℕ :=
  let m := μ % 12
  if m = 1 then (if isLeap (μ / 12) then 29 else 28)
  else if m = 3 ∨ m = 5 ∨ m = 8 ∨ m = 10 then 30 else 31

/-- The month code of January 2026, the first phase-2 month (`"2026-01"` at
line 202 of `app.py`). -/
def jan2026 : ℕ := 12 * 2026

/-- The month code of November 2025 (= January 2026 minus 2 months). -/
def nov2025 : ℕ := 12 * 2025 + 10

/-- Day number of `2025-12-31`, the last phase-1 date (day 0 = `2025-04-14`). -/
def day20251231 : ℤ := 261

/-- Day number of `2026-01-01`, the first phase-2 date. -/
def day20260101 : ℤ := 262

/-- The list of month codes of the consecutive days of months
`μ, μ+1, …, μ+n-1`: one entry per calendar day, in date order.  This is the
`Period` column of the daily calendar `cal` of `build_bands_2026`
(lines 211–214 of `app.py`). -/
def monthsCalendar (μ : ℕ) : ℕ → List ℕ
  | 0 => []
  | n + 1 => List.replicate (daysInMonth μ) μ ++ monthsCalendar (μ + 1) n

/-- Total number of days of months `μ, …, μ+n-1`. -/
def daysUpto (μ : ℕ) : ℕ → ℕ
  | 0 => 0
  | n + 1 => daysInMonth μ + daysUpto (μ + 1) n

variable {α : Type} [LinearOrderedField α]

/-! ## Series plumbing (normalisation pipeline, lines 69–79 of `app.py`) -/

/-- `drop_duplicates(subset=["Date"])`: keep the first row of each date,
preserving order. -/
def dedupByDate {γ : Type} : List (ℤ × γ) → List (ℤ × γ)
  | [] => []
  | r :: rest => r :: dedupByDate (rest.filter (fun s => s.1 != r.1))
  termination_by l => l.length
  decreasing_by
    simp only [List.length_cons]
    exact Nat.lt_succ_of_le (List.length_filter_le _ _)

/-- `sort_values("Date")`. -/
def sortByDate {γ : Type} (l : List (ℤ × γ)) : List (ℤ × γ) :=
  l.insertionSort (fun a b => a.1 ≤ b.1)

/-- Lines 70–71 and 74 of `app.py`: a raw row survives `dropna()` iff both its
coerced date (`pd.to_datetime(..., errors="coerce")`) and coerced value
(`pd.to_numeric(..., errors="coerce")`) parsed. -/
def parseRow (r : Option ℤ × Option α) : Option (ℤ × α) :=
  match r with
  | (some d, some v) => some (d, v)
  | _ => none

/-- Lines 69–79 of `app.py`: coerce date and value (`none` = unparseable /
`NaN`), `dropna()`, `drop_duplicates(subset=["Date"])`, `sort_values("Date")`. -/
def normalizeSeries (rows : List (Option ℤ × Option α)) : List (ℤ × α) :=
  sortByDate (dedupByDate (rows.filterMap parseRow))

/-- The pagination/retry loop of `get_a3500` (lines 35–57): each attempt
contributes the raw rows it accumulated before either completing
(`completed = true`, the inner `break`) or raising a transport error that is
caught by `except RequestException: pass` (`completed = false`).  `data` is
extended across attempts and the loop stops at the first completed attempt. -/
def runAttempts {ρ : Type} : List (List ρ × Bool) → List ρ
  | [] => []
  | (rows, completed) :: rest => rows ++ (if completed then [] else runAttempts rest)

/-- `get_a3500` (lines 30–79 of `app.py`), abstracted over the transport: up to
3 attempts (`for _ in range(3)`), and if no rows were accumulated the function
returns the empty series (lines 62–67) instead of propagating any error. -/
def get_a3500 (attempts : List (List (Option ℤ × Option α) × Bool)) : List (ℤ × α) :=
  let data := runAttempts (attempts.take 3)
  if data.isEmpty then [] else normalizeSeries data

/-! ## Phase 1: `build_bands_2025` (lines 176–189 of `app.py`) -/

/-- `build_bands_2025(start, end, lower0, upper0)`: daily dates from `startD`
to `endD` inclusive, with `lower = lower0 * ((1-0.01)**(1/30))**t` and
`upper = upper0 * ((1+0.01)**(1/30))**t` for 0-based day offset `t`. -/
def build_bands_2025 (pw : α → α → α) (startD endD : ℤ) (lower0 upper0 : α) :
    List (ℤ × α × α) :=
  let g_up := pw (1 + 1 / 100) (1 / 30)
  let g_dn := pw (1 - 1 / 100) (1 / 30)
  (List.range (endD + 1 - startD).toNat).map
    (fun (t : ℕ) => (startD + (t : ℤ), lower0 * g_dn ^ t, upper0 * g_up ^ t))

/-- The program's phase-1 corridor: `build_bands_2025("2025-04-14",
"2025-12-31", 1000.0, 1400.0)` (lines 279–280 and 296 of `app.py`). -/
noncomputable def bands_2025_run : List (ℤ × ℝ × ℝ) :=
  build_bands_2025 Real.rpow 0 day20251231 1000 1400

/-! ## Phase 2: `build_bands_2026` (lines 195–221 of `app.py`) -/

/-- Line 199: `v_m_dec = v_m_CPI if notna else v_m_REM / 100`, read through the
outer join of the realized (`ipc`) and forecast (`rem`) monthly series on
`Period`.  The resolved driving rate of period `p`. -/
def resolveRate (ipc rem : List (ℕ × α)) (p : ℕ) : Option α :=
  match ipc.lookup p with
  | some c => some c
  | none => (rem.lookup p).map (fun f => f / 100)

/-- Line 201: `m.loc[m["v_m_REM"].notna(), "Period"].max()` — the latest
forecast period, `none` when the forecast series is empty (pandas `NaT`). -/
def remMaxPeriod (rem : List (ℕ × α)) : Option ℕ := (rem.map Prod.fst).max?

/-- Lines 211–214: the daily calendar of phase 2, from `2026-01-01` through the
last day of `endMonth`, one month code per day. -/
def phase2Months (endMonth : ℕ) : List ℕ :=
  monthsCalendar jan2026 (endMonth + 1 - jan2026)

/-- Lines 203–215: each day of month `μ` is assigned the resolved rate of the
reference period `μ - 2` (`b["ref"] = b["Period"] - 2` merged onto the daily
calendar); `none` where no rate resolves (left-merge `NaN`). -/
def phase2Rates (ipc rem : List (ℕ × α)) (endMonth : ℕ) : List (Option α) :=
  (phase2Months endMonth).map (fun μ => resolveRate ipc rem (μ - 2))

/-- Line 217–218: daily factor `1 - r_d` with `r_d = (1+v)**(1/30) - 1`. -/
def lowerFactors (pw : α → α → α) (ipc rem : List (ℕ × α)) (endMonth : ℕ) :
    List (Option α) :=
  (phase2Rates ipc rem endMonth).map (Option.map (fun v => 1 - (pw (1 + v) (1 / 30) - 1)))

/-- Line 217 and 219: daily factor `1 + r_d` with `r_d = (1+v)**(1/30) - 1`. -/
def upperFactors (pw : α → α → α) (ipc rem : List (ℕ × α)) (endMonth : ℕ) :
    List (Option α) :=
  (phase2Rates ipc rem endMonth).map (Option.map (fun v => 1 + (pw (1 + v) (1 / 30) - 1)))

/-- Pandas `Series.cumprod()` with its default `skipna=True`: a `NaN` entry
stays `NaN` in the output but does not contribute to (or reset) the running
product. -/
def cumprodSkip (acc : α) : List (Option α) → List (Option α)
  | [] => []
  | none :: rest => none :: cumprodSkip acc rest
  | some x :: rest => some (acc * x) :: cumprodSkip (acc * x) rest

/-- Closed form of the skipping cumulative product: the product of the defined
factors among positions `0..t` (an undefined factor contributes `1`). -/
def skipProd (fs : List (Option α)) (t : ℕ) : α :=
  ∏ i ∈ Finset.range (t + 1), ((fs[i]?).bind id).getD 1

/-- Errors of `build_bands_2026`, in the order the Python code raises them:
  * `emptyRem`: line 202, `pd.period_range("2026-01", NaT)` when the forecast
    series is empty (`ValueError: start and end must not be NaT`);
  * `noAnchor`: lines 208–209, `.iloc[0]` on the empty selection
    `bands_2025["Date"] == "2025-12-31"` (`IndexError`);
  * `emptyRange`: line 212, `pd.date_range("2026-01-01", NaT)` when the month
    range `b` is empty because `end_month` precedes January 2026. -/
inductive BandError
  | emptyRem
  | noAnchor
  | emptyRange
deriving DecidableEq

/-- `build_bands_2026(bands_2025, rem, ipc)` (lines 195–221 of `app.py`). -/
def build_bands_2026 (pw : α → α → α) (bands_2025 : List (ℤ × α × α))
    (rem ipc : List (ℕ × α)) : Except BandError (List (ℤ × Option α × Option α)) :=
  match remMaxPeriod rem with
  | none => .error .emptyRem
  | some M =>
    let endMonth := M + 2
    match bands_2025.find? (fun r => r.1 == day20251231) with
    | none => .error .noAnchor
    | some r0 =>
      if endMonth < jan2026 then .error .emptyRange
      else
        let lows := cumprodSkip r0.2.1 (lowerFactors pw ipc rem endMonth)
        let ups := cumprodSkip r0.2.2 (upperFactors pw ipc rem endMonth)
        .ok ((List.range (phase2Months endMonth).length).map
          (fun (t : ℕ) => (day20260101 + (t : ℤ), (lows[t]?).bind id, (ups[t]?).bind id)))

/-- Lines 299–320 of `app.py`: `pd.concat([bands_2025, bands_2026])`,
`sort_values("Date")`, then `dropna(subset=["Date", "lower", "upper"])`,
`drop_duplicates(subset=["Date"])`, `sort_values("Date")`. -/
def dropnaBands (l : List (ℤ × Option α × Option α)) : List (ℤ × α × α) :=
  l.filterMap (fun r =>
    match r.2.1, r.2.2 with
    | some lo, some up => some (r.1, lo, up)
    | _, _ => none)

/-- The combined `bands` table of lines 299–320. -/
def bands (p1 : List (ℤ × α × α)) (p2 : List (ℤ × Option α × Option α)) :
    List (ℤ × α × α) :=
  sortByDate (dedupByDate (dropnaBands
    (sortByDate (p1.map (fun r => (r.1, some r.2.1, some r.2.2)) ++ p2))))

/-- The phase-2 rows of the concrete run used to witness the amended corridor
invariant. -/
noncomputable def c7wRows : List (ℤ × Option ℝ × Option ℝ) :=
  (build_bands_2026 Real.rpow [((261 : ℤ), (1 : ℝ), (2 : ℝ))]
    [(24310, (2 : ℝ))] []).toOption.getD []


/-! ## Helper lemmas: calendar indexing -/

theorem length_monthsCalendar (μ n : ℕ) : (monthsCalendar μ n).length = daysUpto μ n := by
  induction n generalizing μ with
  | zero => rfl
  | succ n ih =>
    simp [monthsCalendar, daysUpto, ih]

theorem getElem?_monthsCalendar {n k t μ : ℕ} (hk : k < n)
    (h1 : daysUpto μ k ≤ t) (h2 : t < daysUpto μ (k + 1)) :
    (monthsCalendar μ n)[t]? = some (μ + k) := by
  induction n generalizing μ k t with
  | zero => omega
  | succ n ih =>
    rw [monthsCalendar]
    cases k with
    | zero =>
      have ht : t < daysInMonth μ := by
        have := h2
        simp [daysUpto] at this
        omega
      rw [List.getElem?_append_left (by simpa using ht)]
      simp [ht]
    | succ k' =>
      have e1 : daysUpto μ (k' + 1) = daysInMonth μ + daysUpto (μ + 1) k' := rfl
      have e2 : daysUpto μ (k' + 1 + 1) = daysInMonth μ + daysUpto (μ + 1) (k' + 1) := rfl
      rw [e1] at h1
      rw [e2] at h2
      have hd : daysInMonth μ ≤ t := by omega
      rw [List.getElem?_append_right (by simpa using hd)]
      rw [List.length_replicate]
      have := ih (μ := μ + 1) (k := k') (t := t - daysInMonth μ)
        (by omega) (by omega) (by omega)
      rw [this]
      congr 1
      omega

theorem daysInMonth_pos (μ : ℕ) : 0 < daysInMonth μ := by
  simp only [daysInMonth]
  split
  · split <;> omega
  · split <;> omega

theorem daysUpto_pos (μ n : ℕ) (hn : 0 < n) : 0 < daysUpto μ n := by
  cases n with
  | zero => omega
  | succ m =>
    have := daysInMonth_pos μ
    rw [daysUpto]
    omega

/-! ## Helper lemmas: the skipping cumulative product -/

theorem skipProd_cons_zero (x : Option α) (rest : List (Option α)) :
    skipProd (x :: rest) 0 = x.getD 1 := by
  simp [skipProd]

theorem skipProd_cons_succ (x : Option α) (rest : List (Option α)) (t : ℕ) :
    skipProd (x :: rest) (t + 1) = skipProd rest t * x.getD 1 := by
  unfold skipProd
  rw [Finset.prod_range_succ']
  simp

theorem length_cumprodSkip (acc : α) (fs : List (Option α)) :
    (cumprodSkip acc fs).length = fs.length := by
  induction fs generalizing acc with
  | nil => rfl
  | cons x rest ih =>
    cases x <;> simp [cumprodSkip, ih]

/-- Characterisation of pandas `cumprod(skipna=True)`: the entry at position
`t` is defined iff the factor at `t` is, and then equals the anchor times the
product of all defined factors up to and including `t` (undefined factors in
between contribute `1`, i.e. the running product is carried forward across
gaps). -/
theorem cumprodSkip_getElem? (fs : List (Option α)) (acc : α) (t : ℕ) :
    (cumprodSkip acc fs)[t]? =
      (fs[t]?).map (fun o => o.map (fun _ => acc * skipProd fs t)) := by
  induction fs generalizing acc t with
  | nil => simp [cumprodSkip]
  | cons x rest ih =>
    cases x with
    | none =>
      cases t with
      | zero => simp [cumprodSkip]
      | succ t' =>
        simp only [cumprodSkip, List.getElem?_cons_succ]
        rw [ih]
        simp [skipProd_cons_succ]
    | some v =>
      cases t with
      | zero => simp [cumprodSkip, skipProd_cons_zero]
      | succ t' =>
        simp only [cumprodSkip, List.getElem?_cons_succ]
        rw [ih]
        cases hr : rest[t']? with
        | none => simp
        | some o =>
          cases o with
          | none => simp
          | some w =>
            simp only [Option.map_some', skipProd_cons_succ, Option.getD_some,
              Option.some.injEq]
            ring

/-! ## Helper lemmas: `find?` over a mapped range -/

theorem find?_range'_first (p : ℕ → Bool) :
    ∀ (n s j : ℕ), j < n → p (s + j) = true → (∀ i < j, p (s + i) = false) →
      (List.range' s n).find? p = some (s + j)
  | 0, _, _, hj, _, _ => absurd hj (Nat.not_lt_zero _)
  | n + 1, s, 0, _, h1, _ => by
    rw [List.range'_succ]
    rw [List.find?_cons_of_pos _ (by simpa using h1)]
    simp
  | n + 1, s, j + 1, hj, h1, h0 => by
    rw [List.range'_succ]
    rw [List.find?_cons_of_neg _ (by simpa using h0 0 (Nat.zero_lt_succ j))]
    have := find?_range'_first p n (s + 1) j (by omega)
      (by have := h1; rw [show s + 1 + j = s + (j + 1) by omega]; exact this)
      (fun i hi => by rw [show s + 1 + i = s + (i + 1) by omega]; exact h0 (i + 1) (by omega))
    rw [this]
    congr 1
    omega

theorem find?_map_range_first {γ : Type} (g : ℕ → γ) (p : γ → Bool) (n j : ℕ)
    (hj : j < n) (h1 : p (g j) = true) (h0 : ∀ i < j, p (g i) = false) :
    ((List.range n).map g).find? p = some (g j) := by
  rw [List.find?_map, List.range_eq_range']
  rw [find?_range'_first (p ∘ g) n 0 j hj (by simpa using h1)
    (fun i hi => by simpa using h0 i hi)]
  simp

/-- The anchor lookup of lines 208–209: on a phase-1 corridor produced by
`build_bands_2025` over the program's range, the row selected by
`Date == "2025-12-31"` is the last row, `t = 261`. -/
theorem find?_build_bands_2025 (pw : α → α → α) (l u : α) :
    (build_bands_2025 pw 0 day20251231 l u).find? (fun r => r.1 == day20251231) =
      some (day20251231, l * pw (1 - 1 / 100) (1 / 30) ^ 261,
        u * pw (1 + 1 / 100) (1 / 30) ^ 261) := by
  have h := find?_map_range_first
    (g := fun (t : ℕ) =>
      ((0 : ℤ) + (t : ℤ), l * pw (1 - 1 / 100) (1 / 30) ^ t, u * pw (1 + 1 / 100) (1 / 30) ^ t))
    (p := fun r => r.1 == day20251231) 262 261 (by omega)
    (by simp [day20251231])
    (fun i hi => by
      simp only [beq_eq_false_iff_ne, ne_eq, day20251231]
      intro hh
      omega)
  have hn : ((day20251231 + 1 - 0 : ℤ)).toNat = 262 := by decide
  simp only [build_bands_2025, hn]
  rw [h]
  norm_num [day20251231]

/-! ## Helper lemmas: characterisation of `build_bands_2026` -/

theorem option_bind_map {β γ' : Type} (x : Option (Option β)) (f : β → γ') :
    (x.map (fun o => o.map f)).bind id = (x.bind id).map f := by
  cases x <;> simp

theorem build_bands_2026_ok (pw : α → α → α) (b : List (ℤ × α × α))
    (rem ipc : List (ℕ × α)) (M : ℕ) (r0 : ℤ × α × α)
    (hM : remMaxPeriod rem = some M)
    (hF : b.find? (fun r => r.1 == day20251231) = some r0)
    (hR : ¬ M + 2 < jan2026) :
    build_bands_2026 pw b rem ipc =
      .ok ((List.range (phase2Months (M + 2)).length).map
        (fun (t : ℕ) => (day20260101 + (t : ℤ),
          ((cumprodSkip r0.2.1 (lowerFactors pw ipc rem (M + 2)))[t]?).bind id,
          ((cumprodSkip r0.2.2 (upperFactors pw ipc rem (M + 2)))[t]?).bind id))) := by
  simp only [build_bands_2026, hM, hF]
  rw [if_neg hR]

theorem build_bands_2026_ok' (pw : α → α → α) (b : List (ℤ × α × α))
    (rem ipc : List (ℕ × α)) (M : ℕ) (l₁ u₁ : α)
    (hM : remMaxPeriod rem = some M)
    (hF : b.find? (fun r => r.1 == day20251231) = some (day20251231, l₁, u₁))
    (hR : ¬ M + 2 < jan2026) :
    build_bands_2026 pw b rem ipc =
      .ok ((List.range (phase2Months (M + 2)).length).map
        (fun (t : ℕ) => (day20260101 + (t : ℤ),
          ((cumprodSkip l₁ (lowerFactors pw ipc rem (M + 2)))[t]?).bind id,
          ((cumprodSkip u₁ (upperFactors pw ipc rem (M + 2)))[t]?).bind id))) :=
  build_bands_2026_ok pw b rem ipc M (day20251231, l₁, u₁) hM hF hR

/-- The row of the phase-2 corridor at day offset `t` (date `2026-01-01 + t`):
defined exactly where the assigned rate is, and there equal to the anchor value
times the skipping cumulative product of the daily factors up to `t`. -/
theorem build_bands_2026_value (pw : α → α → α) (b : List (ℤ × α × α))
    (rem ipc : List (ℕ × α)) (M : ℕ) (r0 : ℤ × α × α)
    (hM : remMaxPeriod rem = some M)
    (hF : b.find? (fun r => r.1 == day20251231) = some r0)
    (hR : ¬ M + 2 < jan2026) (t : ℕ) (ht : t < (phase2Months (M + 2)).length) :
    (build_bands_2026 pw b rem ipc).toOption.bind (fun rows => rows[t]?) =
      some (day20260101 + (t : ℤ),
        (((phase2Rates ipc rem (M + 2))[t]?).bind id).map
          (fun _ => r0.2.1 * skipProd (lowerFactors pw ipc rem (M + 2)) t),
        (((phase2Rates ipc rem (M + 2))[t]?).bind id).map
          (fun _ => r0.2.2 * skipProd (upperFactors pw ipc rem (M + 2)) t)) := by
  rw [build_bands_2026_ok pw b rem ipc M r0 hM hF hR]
  show (some _).bind _ = _
  rw [Option.some_bind]
  rw [List.getElem?_map, List.getElem?_range ht, Option.map_some']
  rw [cumprodSkip_getElem?, cumprodSkip_getElem?]
  rw [option_bind_map, option_bind_map]
  have e1 : (lowerFactors pw ipc rem (M + 2))[t]? =
      ((phase2Rates ipc rem (M + 2))[t]?).map
        (Option.map (fun v => 1 - (pw (1 + v) (1 / 30) - 1))) := by
    simp [lowerFactors]
  have e2 : (upperFactors pw ipc rem (M + 2))[t]? =
      ((phase2Rates ipc rem (M + 2))[t]?).map
        (Option.map (fun v => 1 + (pw (1 + v) (1 / 30) - 1))) := by
    simp [upperFactors]
  rw [e1, e2, option_bind_map, option_bind_map]
  cases hr : ((phase2Rates ipc rem (M + 2))[t]?).bind id <;> simp

theorem skipProd_zero (fs : List (Option α)) :
    skipProd fs 0 = ((fs[0]?).bind id).getD 1 := by
  simp [skipProd]

/-- First phase-2 row (`2026-01-01`): anchored at the phase-1 row of
`2025-12-31` and already multiplied by one daily factor, because the pandas
`cumprod` of line 218–219 includes the factor of its first element. -/
theorem build_bands_2026_first_row (pw : α → α → α) (b : List (ℤ × α × α))
    (rem ipc : List (ℕ × α)) (M : ℕ) (l₁ u₁ v : α)
    (hM : remMaxPeriod rem = some M)
    (hR : ¬ M + 2 < jan2026)
    (hF : b.find? (fun r => r.1 == day20251231) = some (day20251231, l₁, u₁))
    (hv : resolveRate ipc rem nov2025 = some v) :
    (build_bands_2026 pw b rem ipc).toOption.bind (fun rows => rows[0]?) =
      some (day20260101,
        some (l₁ * (1 - (pw (1 + v) (1 / 30) - 1))),
        some (u₁ * (1 + (pw (1 + v) (1 / 30) - 1)))) := by
  have hlen : 0 < (phase2Months (M + 2)).length := by
    rw [phase2Months, length_monthsCalendar]
    exact daysUpto_pos _ _ (by omega)
  have hm0 : (monthsCalendar jan2026 (M + 2 + 1 - jan2026))[0]? = some (jan2026 + 0) :=
    getElem?_monthsCalendar (by omega) (by simp [daysUpto]) (by decide)
  have hrefn : jan2026 + 0 - 2 = nov2025 := by decide
  have hrate0 : (phase2Rates ipc rem (M + 2))[0]? =
      some (resolveRate ipc rem nov2025) := by
    simp only [phase2Rates, phase2Months, List.getElem?_map, hm0, Option.map_some', hrefn]
  have hval := build_bands_2026_value pw b rem ipc M (day20251231, l₁, u₁) hM hF hR 0 hlen
  rw [hval]
  have hbind : (((phase2Rates ipc rem (M + 2))[0]?).bind id) = some v := by
    rw [hrate0, hv]
    rfl
  have hfdn0 : skipProd (lowerFactors pw ipc rem (M + 2)) 0 =
      1 - (pw (1 + v) (1 / 30) - 1) := by
    rw [skipProd_zero]
    simp [lowerFactors, List.getElem?_map, hrate0, hv]
  have hfup0 : skipProd (upperFactors pw ipc rem (M + 2)) 0 =
      1 + (pw (1 + v) (1 / 30) - 1) := by
    rw [skipProd_zero]
    simp [upperFactors, List.getElem?_map, hrate0, hv]
  rw [hbind]
  simp only [Option.map_some']
  rw [hfdn0, hfup0]
  norm_num

/-! ## Helper lemmas: numeric bounds for `rpow` -/

theorem lt_rpow_thirty {a x : ℝ} (ha : 0 ≤ a) (h : a ^ (30 : ℕ) < x) :
    a < Real.rpow x (1 / 30) := by
  rw [Real.rpow_eq_pow]
  have h30 : (0 : ℝ) < 1 / 30 := by norm_num
  have hh := Real.rpow_lt_rpow (by positivity) h h30
  rwa [← Real.rpow_natCast a 30, ← Real.rpow_mul ha,
    (by norm_num : ((30 : ℕ) : ℝ) * (1 / 30) = 1), Real.rpow_one] at hh

theorem rpow_thirty_lt {x a : ℝ} (hx : 0 ≤ x) (ha : 0 ≤ a) (h : x < a ^ (30 : ℕ)) :
    Real.rpow x (1 / 30) < a := by
  rw [Real.rpow_eq_pow]
  have h30 : (0 : ℝ) < 1 / 30 := by norm_num
  have hh := Real.rpow_lt_rpow hx h h30
  rwa [← Real.rpow_natCast a 30, ← Real.rpow_mul ha,
    (by norm_num : ((30 : ℕ) : ℝ) * (1 / 30) = 1), Real.rpow_one] at hh

theorem rpow_thirty_pos {x : ℝ} (hx : 0 < x) : 0 < Real.rpow x (1 / 30) := by
  rw [Real.rpow_eq_pow]
  exact Real.rpow_pos_of_pos hx _

theorem one_le_rpow_thirty {x : ℝ} (hx : 1 ≤ x) : 1 ≤ Real.rpow x (1 / 30) := by
  rw [Real.rpow_eq_pow]
  exact Real.one_le_rpow hx (by norm_num)

theorem rpow_thirty_le_one {x : ℝ} (hx0 : 0 ≤ x) (hx : x ≤ 1) :
    Real.rpow x (1 / 30) ≤ 1 := by
  rw [Real.rpow_eq_pow]
  exact Real.rpow_le_one hx0 hx (by norm_num)

theorem one_lt_rpow_thirty {x : ℝ} (hx : 1 < x) : 1 < Real.rpow x (1 / 30) := by
  rw [Real.rpow_eq_pow]
  exact Real.one_lt_rpow hx (by norm_num)

theorem rpow_thirty_le_rpow_thirty {x y : ℝ} (hx : 0 ≤ x) (hxy : x ≤ y) :
    Real.rpow x (1 / 30) ≤ Real.rpow y (1 / 30) := by
  rw [Real.rpow_eq_pow, Real.rpow_eq_pow]
  exact Real.rpow_le_rpow hx hxy (by norm_num)

theorem rpow_thirty_pow_thirty {x : ℝ} (hx : 0 ≤ x) :
    Real.rpow x (1 / 30) ^ (30 : ℕ) = x := by
  rw [Real.rpow_eq_pow, ← Real.rpow_natCast (x ^ ((1 : ℝ) / 30)) 30, ← Real.rpow_mul hx]
  norm_num

/-! ## Helper lemmas: `drop_duplicates` and `sort_values` -/

theorem dedupByDate_subset {γ : Type} : ∀ (l : List (ℤ × γ)), dedupByDate l ⊆ l
  | [] => by rw [dedupByDate]; exact fun x hx => hx
  | r :: rest => by
    rw [dedupByDate]
    intro x hx
    rcases List.mem_cons.mp hx with rfl | hx'
    · exact List.mem_cons_self _ _
    · exact List.mem_cons_of_mem _
        (List.mem_of_mem_filter (dedupByDate_subset (rest.filter fun s => s.1 != r.1) hx'))
  termination_by l => l.length
  decreasing_by
    simp only [List.length_cons]
    exact Nat.lt_succ_of_le (List.length_filter_le _ _)

theorem dedupByDate_pairwise {γ : Type} :
    ∀ (l : List (ℤ × γ)), (dedupByDate l).Pairwise (fun a b => a.1 ≠ b.1)
  | [] => by rw [dedupByDate]; exact List.Pairwise.nil
  | r :: rest => by
    rw [dedupByDate]
    refine List.Pairwise.cons ?_ (dedupByDate_pairwise _)
    intro b hb
    have hb' := dedupByDate_subset _ hb
    have hkey := List.of_mem_filter hb'
    simp only [bne_iff_ne, ne_eq] at hkey
    exact fun h => hkey h.symm
  termination_by l => l.length
  decreasing_by
    simp only [List.length_cons]
    exact Nat.lt_succ_of_le (List.length_filter_le _ _)

theorem sortByDate_sorted {γ : Type} (l : List (ℤ × γ)) :
    (sortByDate l).Sorted (fun a b => a.1 ≤ b.1) := by
  haveI : IsTotal (ℤ × γ) (fun a b => a.1 ≤ b.1) := ⟨fun a b => le_total a.1 b.1⟩
  haveI : IsTrans (ℤ × γ) (fun a b => a.1 ≤ b.1) := ⟨fun a b c hab hbc => le_trans hab hbc⟩
  exact List.sorted_insertionSort _ _

theorem sortByDate_perm {γ : Type} (l : List (ℤ × γ)) : List.Perm (sortByDate l) l :=
  List.perm_insertionSort _ _

theorem mem_sortByDate {γ : Type} {l : List (ℤ × γ)} {x : ℤ × γ} :
    x ∈ sortByDate l ↔ x ∈ l :=
  (sortByDate_perm l).mem_iff

/-- Row `t` of the program's phase-1 corridor. -/
theorem getElem?_build_bands_2025 (pw : α → α → α) (l u : α) (t : ℕ) (ht : t < 262) :
    (build_bands_2025 pw 0 day20251231 l u)[t]? =
      some ((t : ℤ), l * pw (1 - 1 / 100) (1 / 30) ^ t,
        u * pw (1 + 1 / 100) (1 / 30) ^ t) := by
  have hn : ((day20251231 + 1 - 0 : ℤ)).toNat = 262 := by decide
  simp only [build_bands_2025, hn, List.getElem?_map, List.getElem?_range ht,
    Option.map_some']
  norm_num

/-! ## Claims -/

/-- C3: Priority rule — for every monthly period for which both a realized
price-index rate and a forecast-survey rate exist, the resolved monthly driving
rate equals the realized rate; for every period with only a forecast rate, it
equals the forecast value divided by 100. -/
theorem C3_priority_rule :
    ∀ (ipc rem : List (ℕ × ℝ)) (p : ℕ) (c f : ℝ),
      (ipc.lookup p = some c → rem.lookup p = some f →
        resolveRate ipc rem p = some c) ∧
      (ipc.lookup p = none → rem.lookup p = some f →
        resolveRate ipc rem p = some (f / 100)) := by
  intro ipc rem p c f
  constructor
  · intro h1 _
    simp [resolveRate, h1]
  · intro h1 h2
    simp [resolveRate, h1, h2]

theorem C3_priority_rule_witness :
    (List.lookup 5 [(5, (3 : ℝ))] = some 3 ∧
      List.lookup 5 [(5, (200 : ℝ))] = some 200 ∧
      resolveRate [(5, (3 : ℝ))] [(5, (200 : ℝ))] 5 = some 3) ∧
    (List.lookup 5 ([] : List (ℕ × ℝ)) = none ∧
      resolveRate ([] : List (ℕ × ℝ)) [(5, (200 : ℝ))] 5 = some (200 / 100)) :=
  ⟨⟨rfl, rfl, (C3_priority_rule [(5, 3)] [(5, 200)] 5 3 200).1 rfl rfl⟩,
    ⟨rfl, (C3_priority_rule [] [(5, 200)] 5 3 200).2 rfl rfl⟩⟩

/-- C5: with an empty forecast-survey Series (and an empty price-index Series)
the Python code does NOT return the phase-1 corridor: `m.loc[...].max()` is
`NaT`, so `pd.period_range("2026-01", NaT + 2)` at line 202 raises
`ValueError` and the whole computation crashes.  The model evaluates the code
at that failing input to the error that corresponds to that raise. -/
theorem C5_empty_forecast_raises :
    build_bands_2026 Real.rpow bands_2025_run ([] : List (ℕ × ℝ))
      ([] : List (ℕ × ℝ)) = .error .emptyRem := by
  rfl

/-- C9: if every retry attempt of the reference-rate fetcher fails on a
transport error with zero accumulated rows, `get_a3500` returns the empty
series (lines 62–67 of `app.py`), and — the exceptions being caught by the
`except RequestException: pass` — no exception escapes (the model is a total
function). -/
theorem C9_fetcher_failure_policy :
    ∀ (attempts : List (List (Option ℤ × Option ℝ) × Bool)),
      (∀ a ∈ attempts, a.1 = [] ∧ a.2 = false) →
      get_a3500 attempts = [] := by
  have hrun : ∀ (l : List (List (Option ℤ × Option ℝ) × Bool)),
      (∀ a ∈ l, a.1 = [] ∧ a.2 = false) → runAttempts l = [] := by
    intro l
    induction l with
    | nil => intro _; rfl
    | cons x rest ih =>
      intro hx
      obtain ⟨rows, completed⟩ := x
      obtain ⟨h1, h2⟩ := hx _ (List.mem_cons_self _ rest)
      simp only at h1 h2
      subst h1
      subst h2
      simp only [runAttempts, if_neg Bool.false_ne_true, List.nil_append]
      exact ih (fun a ha => hx a (List.mem_cons_of_mem _ ha))
  intro attempts h
  have hdata : runAttempts (attempts.take 3) = [] :=
    hrun _ (fun a ha => h a (List.mem_of_mem_take ha))
  simp [get_a3500, hdata]

theorem C9_fetcher_failure_policy_witness :
    (∀ a ∈ [(([] : List (Option ℤ × Option ℝ)), false), ([], false), ([], false)],
      a.1 = [] ∧ a.2 = false) ∧
    get_a3500 [(([] : List (Option ℤ × Option ℝ)), false), ([], false), ([], false)] = [] := by
  have h : ∀ a ∈ [(([] : List (Option ℤ × Option ℝ)), false), ([], false), ([], false)],
      a.1 = [] ∧ a.2 = false := by
    intro a ha
    simp only [List.mem_cons, List.not_mem_nil, or_false] at ha
    rcases ha with rfl | rfl | rfl <;> exact ⟨rfl, rfl⟩
  exact ⟨h, C9_fetcher_failure_policy _ h⟩

/-- C10: `build_bands_2026` anchors phase 2 by selecting the phase-1 row with
date exactly `2025-12-31` and taking `.iloc[0]`; on any phase-1 table with no
such row the selection is empty and the access raises, so the function never
returns normally (and when the forecast lookup of line 201 succeeds, the
failure is exactly the anchor access of lines 208–209). -/
theorem C10_anchor_precondition :
    ∀ (pw : ℝ → ℝ → ℝ) (b : List (ℤ × ℝ × ℝ)) (rem ipc : List (ℕ × ℝ)),
      (∀ r ∈ b, r.1 ≠ day20251231) →
      (build_bands_2026 pw b rem ipc).toOption = none ∧
      (∀ M, remMaxPeriod rem = some M →
        build_bands_2026 pw b rem ipc = .error .noAnchor) := by
  intro pw b rem ipc hb
  have hfind : b.find? (fun r => r.1 == day20251231) = none := by
    rw [List.find?_eq_none]
    intro x hx
    simpa using hb x hx
  constructor
  · cases hM : remMaxPeriod rem with
    | none => simp [build_bands_2026, hM, Except.toOption]
    | some M => simp [build_bands_2026, hM, hfind, Except.toOption]
  · intro M hM
    simp [build_bands_2026, hM, hfind]

theorem C10_anchor_precondition_witness :
    (∀ r ∈ [((0 : ℤ), (1 : ℝ), (2 : ℝ))], r.1 ≠ day20251231) ∧
    ((build_bands_2026 Real.rpow [((0 : ℤ), (1 : ℝ), (2 : ℝ))] [] []).toOption = none ∧
      (∀ M, remMaxPeriod ([] : List (ℕ × ℝ)) = some M →
        build_bands_2026 Real.rpow [((0 : ℤ), (1 : ℝ), (2 : ℝ))] [] [] = .error .noAnchor)) := by
  have h : ∀ r ∈ [((0 : ℤ), (1 : ℝ), (2 : ℝ))], r.1 ≠ day20251231 := by
    intro r hr
    rcases List.mem_singleton.mp hr with rfl
    decide
  exact ⟨h, C10_anchor_precondition _ _ _ _ h⟩

/-- C2: the t−2 lag rule — every day `t` of phase-2 month `jan2026 + k` (the
`k`-th projection month) is assigned the resolved rate of the period two
calendar months earlier, never that of any other month; and if two inputs
resolve to the same rates everywhere except at one period `P`, the rate
assignment differs at most in month `P + 2`, where it equals exactly the
resolved rate of `P`. -/
theorem C2_lag_rule :
    ∀ (ipc₁ rem₁ ipc₂ rem₂ : List (ℕ × ℝ)) (P e k t : ℕ),
      k < e + 1 - jan2026 →
      daysUpto jan2026 k ≤ t → t < daysUpto jan2026 (k + 1) →
      ((phase2Rates ipc₁ rem₁ e)[t]? =
          some (resolveRate ipc₁ rem₁ (jan2026 + k - 2)) ∧
        ((∀ q, q ≠ P → resolveRate ipc₁ rem₁ q = resolveRate ipc₂ rem₂ q) →
          jan2026 + k ≠ P + 2 →
          (phase2Rates ipc₁ rem₁ e)[t]? = (phase2Rates ipc₂ rem₂ e)[t]?) ∧
        (jan2026 + k = P + 2 →
          (phase2Rates ipc₁ rem₁ e)[t]? = some (resolveRate ipc₁ rem₁ P))) := by
  intro ipc₁ rem₁ ipc₂ rem₂ P e k t hk h1 h2
  have hj : (2 : ℕ) ≤ jan2026 := by decide
  have hcal := getElem?_monthsCalendar (μ := jan2026) hk h1 h2
  have hrate : ∀ (ipc rem : List (ℕ × ℝ)),
      (phase2Rates ipc rem e)[t]? =
        some (resolveRate ipc rem (jan2026 + k - 2)) := by
    intro ipc rem
    simp only [phase2Rates, phase2Months, List.getElem?_map, hcal, Option.map_some']
  refine ⟨hrate ipc₁ rem₁, ?_, ?_⟩
  · intro hagree hne
    rw [hrate ipc₁ rem₁, hrate ipc₂ rem₂]
    rw [hagree (jan2026 + k - 2) (fun hq => hne (by omega))]
  · intro hPk
    rw [hrate ipc₁ rem₁]
    rw [show jan2026 + k - 2 = P by omega]

theorem C2_lag_rule_witness :
    (0 < 24312 + 1 - jan2026 ∧ daysUpto jan2026 0 ≤ 0 ∧ 0 < daysUpto jan2026 1) ∧
    ((phase2Rates [] [(24310, (2 : ℝ))] 24312)[0]? =
        some (resolveRate [] [(24310, (2 : ℝ))] (jan2026 + 0 - 2)) ∧
      ((∀ q, q ≠ 24310 →
          resolveRate [] [(24310, (2 : ℝ))] q = resolveRate [] [(24310, (2 : ℝ))] q) →
        jan2026 + 0 ≠ 24310 + 2 →
        (phase2Rates [] [(24310, (2 : ℝ))] 24312)[0]? =
          (phase2Rates [] [(24310, (2 : ℝ))] 24312)[0]?) ∧
      (jan2026 + 0 = 24310 + 2 →
        (phase2Rates [] [(24310, (2 : ℝ))] 24312)[0]? =
          some (resolveRate [] [(24310, (2 : ℝ))] 24310))) :=
  ⟨⟨by decide, by decide, by decide⟩,
    C2_lag_rule [] [(24310, 2)] [] [(24310, 2)] 24310 24312 0 0
      (by decide) (by decide) (by decide)⟩

/-- C4: phase-1 schedule — for every day offset `t` in the fixed range
`2025-04-14..2025-12-31`, `lower(t) = lower0 * (1 - 0.01)^(t/30)` and
`upper(t) = upper0 * (1 + 0.01)^(t/30)`; with `lower0 = 1000`, `upper0 = 1400`
the bounds at `t = 0` are exactly `1000` and `1400`, and at `t = 1` they are
`1000 * 0.99^(1/30) ≈ 999.665` and `1400 * 1.01^(1/30) ≈ 1400.464`. -/
theorem C4_phase1_schedule :
    (∀ (l u : ℝ) (t : ℕ), t < 262 →
      (build_bands_2025 Real.rpow 0 day20251231 l u)[t]? =
        some ((t : ℤ), l * Real.rpow (1 - 1 / 100) ((t : ℝ) / 30),
          u * Real.rpow (1 + 1 / 100) ((t : ℝ) / 30))) ∧
    bands_2025_run[0]? = some (0, 1000, 1400) ∧
    (∀ (d : ℤ) (l2 u2 : ℝ), bands_2025_run[1]? = some (d, l2, u2) →
      999.664 < l2 ∧ l2 < 999.666 ∧ 1400.463 < u2 ∧ u2 < 1400.465) := by
  have hpow : ∀ (x : ℝ), 0 ≤ x → ∀ (t : ℕ),
      Real.rpow x (1 / 30) ^ t = Real.rpow x ((t : ℝ) / 30) := by
    intro x hx t
    rw [Real.rpow_eq_pow, Real.rpow_eq_pow, ← Real.rpow_natCast (x ^ ((1 : ℝ) / 30)) t,
      ← Real.rpow_mul hx]
    congr 1
    ring
  refine ⟨?_, ?_, ?_⟩
  · intro l u t ht
    rw [getElem?_build_bands_2025 Real.rpow l u t ht]
    rw [hpow _ (by norm_num), hpow _ (by norm_num)]
  · show (build_bands_2025 Real.rpow 0 day20251231 1000 1400)[0]? = _
    rw [getElem?_build_bands_2025 Real.rpow 1000 1400 0 (by norm_num)]
    norm_num
  · intro d l2 u2 h
    have h' : (build_bands_2025 Real.rpow 0 day20251231 1000 1400)[1]? =
        some (d, l2, u2) := h
    rw [getElem?_build_bands_2025 Real.rpow 1000 1400 1 (by norm_num)] at h'
    simp only [Option.some.injEq, Prod.mk.injEq, pow_one] at h'
    obtain ⟨-, hl, hu⟩ := h'
    have hdn1 : (0.999664 : ℝ) < Real.rpow (1 - 1 / 100) (1 / 30) :=
      lt_rpow_thirty (by norm_num) (by norm_num)
    have hdn2 : Real.rpow (1 - 1 / 100) (1 / 30) < 0.999666 :=
      rpow_thirty_lt (by norm_num) (by norm_num) (by norm_num)
    have hup1 : (1400463 / 1400000 : ℝ) < Real.rpow (1 + 1 / 100) (1 / 30) :=
      lt_rpow_thirty (by norm_num) (by norm_num)
    have hup2 : Real.rpow (1 + 1 / 100) (1 / 30) < (1400465 / 1400000 : ℝ) :=
      rpow_thirty_lt (by norm_num) (by norm_num) (by norm_num)
    refine ⟨?_, ?_, ?_, ?_⟩
    · rw [← hl]; nlinarith
    · rw [← hl]; nlinarith
    · rw [← hu]; nlinarith
    · rw [← hu]; nlinarith

theorem C4_phase1_schedule_witness :
    5 < 262 ∧
    (build_bands_2025 Real.rpow 0 day20251231 2 3)[5]? =
      some ((5 : ℤ), 2 * Real.rpow (1 - 1 / 100) ((5 : ℝ) / 30),
        3 * Real.rpow (1 + 1 / 100) ((5 : ℝ) / 30)) :=
  ⟨by norm_num, by
    have := C4_phase1_schedule.1 2 3 5 (by norm_num)
    simpa using this⟩

/-- C8: every Series produced by the normalisation pipeline of the
reference-rate fetcher (lines 69–79 of `app.py`) has pairwise-distinct dates in
strictly ascending order, and contains only rows whose date and value both
parsed (unparseable rows dropped, duplicate dates resolved deterministically by
keeping the first). -/
theorem C8_normalizer_invariants :
    ∀ (rows : List (Option ℤ × Option ℝ)),
      (normalizeSeries rows).Pairwise (fun a b => a.1 < b.1) ∧
      ∀ r ∈ normalizeSeries rows, (some r.1, some r.2) ∈ rows := by
  intro rows
  constructor
  · have hsorted : (normalizeSeries rows).Pairwise (fun a b => a.1 ≤ b.1) :=
      sortByDate_sorted _
    have hne : (normalizeSeries rows).Pairwise (fun a b => a.1 ≠ b.1) := by
      have hperm := sortByDate_perm (dedupByDate (rows.filterMap parseRow))
      have hdd := dedupByDate_pairwise (rows.filterMap parseRow)
      exact (List.Perm.pairwise_iff (fun h => Ne.symm h) hperm).mpr hdd
    exact (hsorted.and hne).imp (fun h => lt_of_le_of_ne h.1 h.2)
  · intro r hr
    have h1 : r ∈ dedupByDate (rows.filterMap parseRow) := mem_sortByDate.mp hr
    have h2 := dedupByDate_subset _ h1
    obtain ⟨raw, hraw, hmatch⟩ := List.mem_filterMap.mp h2
    obtain ⟨a, b⟩ := raw
    cases a with
    | none => simp [parseRow] at hmatch
    | some d =>
      cases b with
      | none => simp [parseRow] at hmatch
      | some v =>
        simp only [parseRow, Option.some.injEq] at hmatch
        rw [← hmatch]
        exact hraw

theorem C8_normalizer_invariants_witness :
    ((5 : ℤ), (3 : ℝ)) ∈ normalizeSeries [(some (5 : ℤ), some (3 : ℝ))] ∧
    (some (5 : ℤ), some (3 : ℝ)) ∈ [(some (5 : ℤ), some (3 : ℝ))] := by
  have hmem : ((5 : ℤ), (3 : ℝ)) ∈ normalizeSeries [(some (5 : ℤ), some (3 : ℝ))] := by
    simp [normalizeSeries, sortByDate, dedupByDate, parseRow, List.filterMap]
  exact ⟨hmem, (C8_normalizer_invariants [(some 5, some 3)]).2 _ hmem⟩

/-- C1 (counterexample): a run in which phase 2 is produced (November 2025 rate
resolved to 2%) where the phase-2 lower value at `2026-01-01` does NOT equal
the phase-1 lower value at `2025-12-31` within `1e-9` relative tolerance: the
cumprod of line 218 already applies one daily factor on the first day. -/
theorem C1_boundary_counterexample :
    (bands_2025_run.find? (fun r => r.1 == day20251231) =
        some (day20251231, 1000 * Real.rpow (1 - 1 / 100) (1 / 30) ^ 261,
          1400 * Real.rpow (1 + 1 / 100) (1 / 30) ^ 261)) ∧
    ((build_bands_2026 Real.rpow bands_2025_run [(24310, (2 : ℝ))]
        [(24310, (1 / 50 : ℝ))]).toOption.bind (fun rows => rows[0]?) =
      some (day20260101,
        some (1000 * Real.rpow (1 - 1 / 100) (1 / 30) ^ 261 *
          (1 - (Real.rpow (1 + 1 / 50) (1 / 30) - 1))),
        some (1400 * Real.rpow (1 + 1 / 100) (1 / 30) ^ 261 *
          (1 + (Real.rpow (1 + 1 / 50) (1 / 30) - 1))))) ∧
    ¬ |1000 * Real.rpow (1 - 1 / 100) (1 / 30) ^ 261 *
          (1 - (Real.rpow (1 + 1 / 50) (1 / 30) - 1)) -
        1000 * Real.rpow (1 - 1 / 100) (1 / 30) ^ 261| ≤
      1 / 1000000000 * |1000 * Real.rpow (1 - 1 / 100) (1 / 30) ^ 261| := by
  have hF : bands_2025_run.find? (fun r => r.1 == day20251231) =
      some (day20251231, 1000 * Real.rpow (1 - 1 / 100) (1 / 30) ^ 261,
        1400 * Real.rpow (1 + 1 / 100) (1 / 30) ^ 261) :=
    find?_build_bands_2025 Real.rpow 1000 1400
  refine ⟨hF, ?_, ?_⟩
  · exact build_bands_2026_first_row Real.rpow bands_2025_run
      [(24310, (2 : ℝ))] [(24310, (1 / 50 : ℝ))] 24310 _ _ (1 / 50)
      rfl (by decide) hF rfl
  · have hA : (0 : ℝ) < Real.rpow (1 - 1 / 100) (1 / 30) :=
      rpow_thirty_pos (by norm_num)
    have hL : (0 : ℝ) < 1000 * Real.rpow (1 - 1 / 100) (1 / 30) ^ 261 := by positivity
    have hc : (1 + 1 / 1000000000 : ℝ) < Real.rpow (1 + 1 / 50) (1 / 30) :=
      lt_rpow_thirty (by norm_num) (by norm_num)
    rw [not_le]
    have h1 : 1000 * Real.rpow (1 - 1 / 100) (1 / 30) ^ 261 *
          (1 - (Real.rpow (1 + 1 / 50) (1 / 30) - 1)) -
        1000 * Real.rpow (1 - 1 / 100) (1 / 30) ^ 261 =
        -(1000 * Real.rpow (1 - 1 / 100) (1 / 30) ^ 261 *
          (Real.rpow (1 + 1 / 50) (1 / 30) - 1)) := by
      ring
    rw [h1, abs_neg,
      abs_of_pos (by nlinarith : (0 : ℝ) < 1000 * Real.rpow (1 - 1 / 100) (1 / 30) ^ 261 *
        (Real.rpow (1 + 1 / 50) (1 / 30) - 1)),
      abs_of_pos hL]
    nlinarith

/-- C1 (amended): for every run in which phase 2 is produced (latest forecast
period `M`, `jan2026 ≤ M + 2`) with anchor row `(2025-12-31, l₁, u₁)` and a
resolved driving rate `v` for November 2025, the phase-2 corridor at its first
date `2026-01-01` equals the phase-1 values at `2025-12-31` multiplied by one
daily compounding factor: `l₁ * (1 - r_d)` and `u₁ * (1 + r_d)` with
`r_d = (1+v)^(1/30) - 1` — so the two sides agree within `1e-9` relative only
when `r_d` is that small, not in general. -/
theorem C1_boundary_amended :
    ∀ (pw : ℝ → ℝ → ℝ) (b : List (ℤ × ℝ × ℝ)) (rem ipc : List (ℕ × ℝ))
      (M : ℕ) (l₁ u₁ v : ℝ),
      remMaxPeriod rem = some M →
      ¬ M + 2 < jan2026 →
      b.find? (fun r => r.1 == day20251231) = some (day20251231, l₁, u₁) →
      resolveRate ipc rem nov2025 = some v →
      (build_bands_2026 pw b rem ipc).toOption.bind (fun rows => rows[0]?) =
        some (day20260101,
          some (l₁ * (1 - (pw (1 + v) (1 / 30) - 1))),
          some (u₁ * (1 + (pw (1 + v) (1 / 30) - 1)))) := by
  intro pw b rem ipc M l₁ u₁ v hM hR hF hv
  exact build_bands_2026_first_row pw b rem ipc M l₁ u₁ v hM hR hF hv

theorem C1_boundary_amended_witness :
    (remMaxPeriod [(24310, (2 : ℝ))] = some 24310 ∧
      ¬ 24310 + 2 < jan2026 ∧
      List.find? (fun r => r.1 == day20251231) [((261 : ℤ), (5 : ℝ), (7 : ℝ))] =
        some (day20251231, 5, 7) ∧
      resolveRate ([] : List (ℕ × ℝ)) [(24310, (2 : ℝ))] nov2025 = some (2 / 100)) ∧
    (build_bands_2026 Real.rpow [((261 : ℤ), (5 : ℝ), (7 : ℝ))] [(24310, (2 : ℝ))]
        []).toOption.bind (fun rows => rows[0]?) =
      some (day20260101,
        some (5 * (1 - (Real.rpow (1 + 2 / 100) (1 / 30) - 1))),
        some (7 * (1 + (Real.rpow (1 + 2 / 100) (1 / 30) - 1)))) :=
  ⟨⟨rfl, by decide, rfl, rfl⟩,
    C1_boundary_amended Real.rpow [((261 : ℤ), (5 : ℝ), (7 : ℝ))] [(24310, (2 : ℝ))] []
      24310 5 7 (2 / 100) rfl (by decide) rfl rfl⟩

/-- C6 (counterexample): a run with a data gap — November 2025 and January 2026
rates resolve, December 2025 does not, so February 2026 is a gap month — in
which the bounds of `2026-02-05` (day offset 35, day number 297) are undefined
(`NaN`, later dropped by line 316), not carried forward from the last defined
rate as the claim states. -/
theorem C6_gap_counterexample :
    resolveRate [(24310, (1 / 50 : ℝ)), (24312, (1 / 50 : ℝ))]
      [(24312, (2 : ℝ))] 24310 = some (1 / 50) ∧
    resolveRate [(24310, (1 / 50 : ℝ)), (24312, (1 / 50 : ℝ))]
      [(24312, (2 : ℝ))] 24311 = none ∧
    (build_bands_2026 Real.rpow bands_2025_run [(24312, (2 : ℝ))]
        [(24310, (1 / 50 : ℝ)), (24312, (1 / 50 : ℝ))]).toOption.bind
      (fun rows => rows[35]?) = some ((297 : ℤ), none, none) := by
  refine ⟨rfl, rfl, ?_⟩
  have hF : bands_2025_run.find? (fun r => r.1 == day20251231) =
      some (day20251231, 1000 * Real.rpow (1 - 1 / 100) (1 / 30) ^ 261,
        1400 * Real.rpow (1 + 1 / 100) (1 / 30) ^ 261) :=
    find?_build_bands_2025 Real.rpow 1000 1400
  have ht : 35 < (phase2Months (24312 + 2)).length := by
    rw [phase2Months, length_monthsCalendar]
    decide
  have hval := build_bands_2026_value Real.rpow bands_2025_run
    [(24312, (2 : ℝ))] [(24310, (1 / 50 : ℝ)), (24312, (1 / 50 : ℝ))] 24312
    (day20251231, 1000 * Real.rpow (1 - 1 / 100) (1 / 30) ^ 261,
      1400 * Real.rpow (1 + 1 / 100) (1 / 30) ^ 261)
    rfl hF (by decide) 35 ht
  rw [hval]
  have hm35 : (monthsCalendar jan2026 (24312 + 2 + 1 - jan2026))[35]? =
      some (jan2026 + 1) :=
    getElem?_monthsCalendar (by decide) (by decide) (by decide)
  have hrate35 : (phase2Rates [(24310, (1 / 50 : ℝ)), (24312, (1 / 50 : ℝ))]
      [(24312, (2 : ℝ))] (24312 + 2))[35]? = some none := by
    simp only [phase2Rates, phase2Months, List.getElem?_map, hm35, Option.map_some']
    rw [show jan2026 + 1 - 2 = 24311 by decide]
    rfl
  rw [hrate35]
  norm_num [day20260101]

/-- C6 (amended): characterisation of the gap behaviour of lines 215–219 —
every phase-2 day `t` whose month has no resolvable t−2 rate gets undefined
(`none`) bounds, and every day with a resolvable rate gets the anchor times the
product of the daily factors of the resolvable days up to `t`: a gap
contributes factor `1` (the running product is carried forward unchanged
across the gap), not the most recently defined monthly rate. -/
theorem C6_gap_amended :
    ∀ (pw : ℝ → ℝ → ℝ) (b : List (ℤ × ℝ × ℝ)) (rem ipc : List (ℕ × ℝ))
      (M : ℕ) (l₁ u₁ : ℝ) (t : ℕ),
      remMaxPeriod rem = some M →
      ¬ M + 2 < jan2026 →
      b.find? (fun r => r.1 == day20251231) = some (day20251231, l₁, u₁) →
      t < daysUpto jan2026 (M + 2 + 1 - jan2026) →
      (build_bands_2026 pw b rem ipc).toOption.bind (fun rows => rows[t]?) =
        some (day20260101 + (t : ℤ),
          (((phase2Rates ipc rem (M + 2))[t]?).bind id).map
            (fun _ => l₁ * skipProd (lowerFactors pw ipc rem (M + 2)) t),
          (((phase2Rates ipc rem (M + 2))[t]?).bind id).map
            (fun _ => u₁ * skipProd (upperFactors pw ipc rem (M + 2)) t)) := by
  intro pw b rem ipc M l₁ u₁ t hM hR hF ht
  have ht' : t < (phase2Months (M + 2)).length := by
    rw [phase2Months, length_monthsCalendar]
    exact ht
  exact build_bands_2026_value pw b rem ipc M (day20251231, l₁, u₁) hM hF hR t ht'

theorem C6_gap_amended_witness :
    (remMaxPeriod [(24310, (2 : ℝ))] = some 24310 ∧
      ¬ 24310 + 2 < jan2026 ∧
      List.find? (fun r => r.1 == day20251231) [((261 : ℤ), (5 : ℝ), (7 : ℝ))] =
        some (day20251231, 5, 7) ∧
      0 < daysUpto jan2026 (24310 + 2 + 1 - jan2026)) ∧
    (build_bands_2026 Real.rpow [((261 : ℤ), (5 : ℝ), (7 : ℝ))]
        [(24310, (2 : ℝ))] []).toOption.bind (fun rows => rows[0]?) =
      some (day20260101 + ((0 : ℕ) : ℤ),
        (((phase2Rates [] [(24310, (2 : ℝ))] (24310 + 2))[0]?).bind id).map
          (fun _ => 5 * skipProd (lowerFactors Real.rpow [] [(24310, (2 : ℝ))] (24310 + 2)) 0),
        (((phase2Rates [] [(24310, (2 : ℝ))] (24310 + 2))[0]?).bind id).map
          (fun _ => 7 * skipProd (upperFactors Real.rpow [] [(24310, (2 : ℝ))] (24310 + 2)) 0)) :=
  ⟨⟨rfl, by decide, rfl, by decide⟩,
    C6_gap_amended Real.rpow [((261 : ℤ), (5 : ℝ), (7 : ℝ))] [(24310, (2 : ℝ))] []
      24310 5 7 0 rfl (by decide) rfl (by decide)⟩

/-- C7 (counterexample): the corridor invariant `lower ≤ upper` fails under the
claim's stated preconditions (`lower0 = 1000 ≤ 1400 = upper0` and every
resolved rate in `(-1, 1)`): with a resolved November 2025 rate of `-0.999`
(deflation, inside `(-1,1)`), already on `2026-01-02` (day number 263) the
phase-2 lower bound exceeds the upper bound. -/
theorem C7_invariant_counterexample :
    (∀ p v, resolveRate [(24310, (-999 / 1000 : ℝ))] [(24310, (-999 / 10 : ℝ))] p =
        some v → -1 < v ∧ v < 1) ∧
    ((1000 : ℝ) ≤ 1400) ∧
    ((build_bands_2026 Real.rpow bands_2025_run [(24310, (-999 / 10 : ℝ))]
        [(24310, (-999 / 1000 : ℝ))]).toOption.bind (fun rows => rows[1]?) =
      some ((263 : ℤ),
        some (1000 * Real.rpow (1 - 1 / 100) (1 / 30) ^ 261 *
          ((1 - (Real.rpow (1 + (-999 / 1000)) (1 / 30) - 1)) *
            (1 - (Real.rpow (1 + (-999 / 1000)) (1 / 30) - 1)))),
        some (1400 * Real.rpow (1 + 1 / 100) (1 / 30) ^ 261 *
          ((1 + (Real.rpow (1 + (-999 / 1000)) (1 / 30) - 1)) *
            (1 + (Real.rpow (1 + (-999 / 1000)) (1 / 30) - 1)))))) ∧
    1400 * Real.rpow (1 + 1 / 100) (1 / 30) ^ 261 *
        ((1 + (Real.rpow (1 + (-999 / 1000)) (1 / 30) - 1)) *
          (1 + (Real.rpow (1 + (-999 / 1000)) (1 / 30) - 1))) <
      1000 * Real.rpow (1 - 1 / 100) (1 / 30) ^ 261 *
        ((1 - (Real.rpow (1 + (-999 / 1000)) (1 / 30) - 1)) *
          (1 - (Real.rpow (1 + (-999 / 1000)) (1 / 30) - 1))) := by
  refine ⟨?_, by norm_num, ?_, ?_⟩
  · intro p v h
    by_cases hp : p = 24310
    · subst hp
      have hcomp : resolveRate [(24310, (-999 / 1000 : ℝ))] [(24310, (-999 / 10 : ℝ))]
          24310 = some (-999 / 1000) := rfl
      rw [hcomp] at h
      rw [← Option.some.inj h]
      norm_num
    · have hb : (p == 24310) = false := beq_eq_false_iff_ne.mpr hp
      have hnone : resolveRate [(24310, (-999 / 1000 : ℝ))] [(24310, (-999 / 10 : ℝ))]
          p = none := by
        simp [resolveRate, List.lookup, hb]
      rw [hnone] at h
      exact absurd h (by simp)
  · have hF : bands_2025_run.find? (fun r => r.1 == day20251231) =
        some (day20251231, 1000 * Real.rpow (1 - 1 / 100) (1 / 30) ^ 261,
          1400 * Real.rpow (1 + 1 / 100) (1 / 30) ^ 261) :=
      find?_build_bands_2025 Real.rpow 1000 1400
    have ht : 1 < (phase2Months (24310 + 2)).length := by
      rw [phase2Months, length_monthsCalendar]
      decide
    have hval := build_bands_2026_value Real.rpow bands_2025_run
      [(24310, (-999 / 10 : ℝ))] [(24310, (-999 / 1000 : ℝ))] 24310
      (day20251231, 1000 * Real.rpow (1 - 1 / 100) (1 / 30) ^ 261,
        1400 * Real.rpow (1 + 1 / 100) (1 / 30) ^ 261)
      rfl hF (by decide) 1 ht
    rw [hval]
    have hrate : ∀ i : ℕ, i < 2 →
        (phase2Rates [(24310, (-999 / 1000 : ℝ))] [(24310, (-999 / 10 : ℝ))]
          (24310 + 2))[i]? = some (some (-999 / 1000)) := by
      intro i hi
      have hmi : (monthsCalendar jan2026 (24310 + 2 + 1 - jan2026))[i]? =
          some (jan2026 + 0) :=
        getElem?_monthsCalendar (by decide) (by simp [daysUpto]) (by
          have : i < 2 := hi
          have h31 : daysUpto jan2026 (0 + 1) = 31 := by decide
          omega)
      simp only [phase2Rates, phase2Months, List.getElem?_map, hmi, Option.map_some']
      rw [show jan2026 + 0 - 2 = 24310 by decide]
      rfl
    have hsplow : skipProd (lowerFactors Real.rpow [(24310, (-999 / 1000 : ℝ))]
        [(24310, (-999 / 10 : ℝ))] (24310 + 2)) 1 =
        (1 - (Real.rpow (1 + (-999 / 1000)) (1 / 30) - 1)) *
          (1 - (Real.rpow (1 + (-999 / 1000)) (1 / 30) - 1)) := by
      have hf : ∀ i : ℕ, i < 2 →
          (lowerFactors Real.rpow [(24310, (-999 / 1000 : ℝ))]
            [(24310, (-999 / 10 : ℝ))] (24310 + 2))[i]? =
          some (some (1 - (Real.rpow (1 + (-999 / 1000)) (1 / 30) - 1))) := by
        intro i hi
        simp only [lowerFactors, List.getElem?_map, hrate i hi, Option.map_some']
      rw [skipProd]
      rw [Finset.prod_range_succ, Finset.prod_range_one]
      rw [hf 0 (by omega), hf 1 (by omega)]
      rfl
    have hspup : skipProd (upperFactors Real.rpow [(24310, (-999 / 1000 : ℝ))]
        [(24310, (-999 / 10 : ℝ))] (24310 + 2)) 1 =
        (1 + (Real.rpow (1 + (-999 / 1000)) (1 / 30) - 1)) *
          (1 + (Real.rpow (1 + (-999 / 1000)) (1 / 30) - 1)) := by
      have hf : ∀ i : ℕ, i < 2 →
          (upperFactors Real.rpow [(24310, (-999 / 1000 : ℝ))]
            [(24310, (-999 / 10 : ℝ))] (24310 + 2))[i]? =
          some (some (1 + (Real.rpow (1 + (-999 / 1000)) (1 / 30) - 1))) := by
        intro i hi
        simp only [upperFactors, List.getElem?_map, hrate i hi, Option.map_some']
      rw [skipProd]
      rw [Finset.prod_range_succ, Finset.prod_range_one]
      rw [hf 0 (by omega), hf 1 (by omega)]
      rfl
    rw [hrate 1 (by omega)]
    simp only [Option.some_bind, id, Option.map_some']
    rw [hsplow, hspup]
    norm_num [day20260101]
  · rw [show (1 + (-999 / 1000) : ℝ) = 1 / 1000 by norm_num]
    have hc0 : (0 : ℝ) < Real.rpow (1 / 1000) (1 / 30) :=
      rpow_thirty_pos (by norm_num)
    have hc8 : Real.rpow (1 / 1000) (1 / 30) < 4 / 5 :=
      rpow_thirty_lt (by norm_num) (by norm_num) (by norm_num)
    have hA0 : (0 : ℝ) < Real.rpow (1 - 1 / 100) (1 / 30) :=
      rpow_thirty_pos (by norm_num)
    have hA1 : Real.rpow (1 - 1 / 100) (1 / 30) ≤ 1 :=
      rpow_thirty_le_one (by norm_num) (by norm_num)
    have hB1 : (1 : ℝ) ≤ Real.rpow (1 + 1 / 100) (1 / 30) :=
      one_le_rpow_thirty (by norm_num)
    have hA30 : Real.rpow (1 - 1 / 100) (1 / 30) ^ (30 : ℕ) = 1 - 1 / 100 :=
      rpow_thirty_pow_thirty (by norm_num)
    have hB30 : Real.rpow (1 + 1 / 100) (1 / 30) ^ (30 : ℕ) = 1 + 1 / 100 :=
      rpow_thirty_pow_thirty (by norm_num)
    have hA261 : (91 / 100 : ℝ) < Real.rpow (1 - 1 / 100) (1 / 30) ^ 261 := by
      have h270 : Real.rpow (1 - 1 / 100) (1 / 30) ^ (270 : ℕ) ≤
          Real.rpow (1 - 1 / 100) (1 / 30) ^ (261 : ℕ) :=
        pow_le_pow_of_le_one hA0.le hA1 (by norm_num)
      have he : Real.rpow (1 - 1 / 100) (1 / 30) ^ (270 : ℕ) = (1 - 1 / 100) ^ (9 : ℕ) := by
        rw [show (270 : ℕ) = 30 * 9 from rfl, pow_mul, hA30]
      rw [he] at h270
      have : (91 / 100 : ℝ) < (1 - 1 / 100) ^ (9 : ℕ) := by norm_num
      linarith
    have hB261 : Real.rpow (1 + 1 / 100) (1 / 30) ^ 261 < 11 / 10 := by
      have h270 : Real.rpow (1 + 1 / 100) (1 / 30) ^ (261 : ℕ) ≤
          Real.rpow (1 + 1 / 100) (1 / 30) ^ (270 : ℕ) :=
        pow_le_pow_right₀ hB1 (by norm_num)
      have he : Real.rpow (1 + 1 / 100) (1 / 30) ^ (270 : ℕ) = (1 + 1 / 100) ^ (9 : ℕ) := by
        rw [show (270 : ℕ) = 30 * 9 from rfl, pow_mul, hB30]
      rw [he] at h270
      have : ((1 : ℝ) + 1 / 100) ^ (9 : ℕ) < 11 / 10 := by norm_num
      linarith
    have e1 : (1 + (Real.rpow (1 / 1000) (1 / 30) - 1)) = Real.rpow (1 / 1000) (1 / 30) := by
      ring
    have e2 : (1 - (Real.rpow (1 / 1000) (1 / 30) - 1)) = 2 - Real.rpow (1 / 1000) (1 / 30) := by
      ring
    rw [e1, e2]
    have hApow : (0 : ℝ) < Real.rpow (1 - 1 / 100) (1 / 30) ^ 261 := by positivity
    have hBpow : (0 : ℝ) < Real.rpow (1 + 1 / 100) (1 / 30) ^ 261 := by positivity
    nlinarith [mul_pos hc0 hc0, sq_nonneg (Real.rpow (1 / 1000) (1 / 30)),
      mul_pos hApow (mul_pos hc0 hc0)]

/-- With every resolved rate in `[0, 1)`, each daily lower factor lies in
`[0, 1]` and is dominated by the matching upper factor. -/
theorem factors_nonneg_le (ipc rem : List (ℕ × ℝ)) (e : ℕ)
    (hrates : ∀ p v, resolveRate ipc rem p = some v → 0 ≤ v ∧ v < 1) (i : ℕ) :
    0 ≤ ((((lowerFactors Real.rpow ipc rem e)[i]?).bind id).getD 1) ∧
      ((((lowerFactors Real.rpow ipc rem e)[i]?).bind id).getD 1) ≤
        ((((upperFactors Real.rpow ipc rem e)[i]?).bind id).getD 1) := by
  have hdn : (lowerFactors Real.rpow ipc rem e)[i]? =
      ((phase2Rates ipc rem e)[i]?).map
        (Option.map (fun v => 1 - (Real.rpow (1 + v) (1 / 30) - 1))) := by
    simp [lowerFactors]
  have hup : (upperFactors Real.rpow ipc rem e)[i]? =
      ((phase2Rates ipc rem e)[i]?).map
        (Option.map (fun v => 1 + (Real.rpow (1 + v) (1 / 30) - 1))) := by
    simp [upperFactors]
  rw [hdn, hup]
  cases hro : (phase2Rates ipc rem e)[i]? with
  | none => simp
  | some o =>
    cases o with
    | none => simp
    | some v =>
      have hv : resolveRate ipc rem
          ((phase2Months e).getD i 0 - 2) = some v := by
        have : (phase2Months e)[i]? ≠ none := by
          intro hnone
          rw [phase2Rates, List.getElem?_map, hnone] at hro
          exact Option.noConfusion hro
        obtain ⟨μ, hμ⟩ := Option.ne_none_iff_exists'.mp this
        rw [phase2Rates, List.getElem?_map, hμ, Option.map_some'] at hro
        rw [List.getD_eq_getElem?_getD, hμ]
        exact Option.some.inj hro
      obtain ⟨hv0, hv1⟩ := hrates _ _ hv
      have hc1 : (1 : ℝ) ≤ Real.rpow (1 + v) (1 / 30) :=
        one_le_rpow_thirty (by linarith)
      have hc2 : Real.rpow (1 + v) (1 / 30) < 2 := by
        have h2' : Real.rpow (1 + v) (1 / 30) ≤ Real.rpow 2 (1 / 30) :=
          rpow_thirty_le_rpow_thirty (by linarith) (by linarith)
        have h2'' : Real.rpow (2 : ℝ) (1 / 30) < 2 :=
          rpow_thirty_lt (by norm_num) (by norm_num) (by norm_num)
        linarith
      simp only [Option.map_some', Option.some_bind, id, Option.getD_some]
      constructor <;> [linarith; linarith]

/-- C7 (amended): the corridor invariant `lower ≤ upper` holds for the
concatenated table of lines 299–320 under the amended preconditions
`0 ≤ lower0 ≤ upper0` (rowwise for phase 1, and for the anchor) and every
resolved monthly rate in `[0, 1)` — not in `(-1, 1)` as claimed: negative
rates make the lower factor exceed the upper factor and can cross the bounds.
The program's phase-1 corridor itself satisfies the rowwise invariant. -/
theorem C7_invariant_amended :
    (∀ r ∈ bands_2025_run, r.2.1 ≤ r.2.2) ∧
    ∀ (p1 : List (ℤ × ℝ × ℝ)) (rem ipc : List (ℕ × ℝ))
      (rows : List (ℤ × Option ℝ × Option ℝ)) (l₁ u₁ : ℝ),
      (∀ r ∈ p1, r.2.1 ≤ r.2.2) →
      p1.find? (fun r => r.1 == day20251231) = some (day20251231, l₁, u₁) →
      0 ≤ l₁ → l₁ ≤ u₁ →
      (∀ p v, resolveRate ipc rem p = some v → 0 ≤ v ∧ v < 1) →
      build_bands_2026 Real.rpow p1 rem ipc = .ok rows →
      ∀ r ∈ bands p1 rows, r.2.1 ≤ r.2.2 := by
  constructor
  · intro r hr
    have hn : ((day20251231 + 1 - 0 : ℤ)).toNat = 262 := by decide
    simp only [bands_2025_run, build_bands_2025, hn] at hr
    obtain ⟨t, -, rfl⟩ := List.mem_map.mp hr
    have hdn0 : (0 : ℝ) ≤ Real.rpow (1 - 1 / 100) (1 / 30) :=
      (rpow_thirty_pos (by norm_num)).le
    have hdnup : Real.rpow (1 - 1 / 100) (1 / 30) ≤ Real.rpow (1 + 1 / 100) (1 / 30) :=
      rpow_thirty_le_rpow_thirty (by norm_num) (by norm_num)
    have h1 : (1000 : ℝ) * Real.rpow (1 - 1 / 100) (1 / 30) ^ t ≤
        1000 * Real.rpow (1 + 1 / 100) (1 / 30) ^ t :=
      mul_le_mul_of_nonneg_left (pow_le_pow_left₀ hdn0 hdnup t) (by norm_num)
    have h2 : (1000 : ℝ) * Real.rpow (1 + 1 / 100) (1 / 30) ^ t ≤
        1400 * Real.rpow (1 + 1 / 100) (1 / 30) ^ t :=
      mul_le_mul_of_nonneg_right (by norm_num)
        (pow_nonneg (le_trans hdn0 hdnup) t)
    exact le_trans h1 h2
  · intro p1 rem ipc rows l₁ u₁ hp1 hF hl0 hlu hrates hok
    cases hM : remMaxPeriod rem with
    | none =>
      exfalso
      simp only [build_bands_2026, hM] at hok
      exact Except.noConfusion hok
    | some M =>
      by_cases hR : M + 2 < jan2026
      · exfalso
        simp only [build_bands_2026, hM, hF, if_pos hR] at hok
        exact Except.noConfusion hok
      · have hko := build_bands_2026_ok' Real.rpow p1 rem ipc M l₁ u₁ hM hF hR
        rw [hok] at hko
        have hX := Except.ok.inj hko
        clear hko hok
        intro r hr
        rw [bands] at hr
        have h1 := mem_sortByDate.mp hr
        have h2 := dedupByDate_subset _ h1
        rw [dropnaBands] at h2
        obtain ⟨s, hs, hmatch⟩ := List.mem_filterMap.mp h2
        have hs' := mem_sortByDate.mp hs
        rcases List.mem_append.mp hs' with hsp | hsr
        · obtain ⟨q, hq, rfl⟩ := List.mem_map.mp hsp
          simp only [Option.some.injEq] at hmatch
          rw [← hmatch]
          exact hp1 q hq
        · rw [hX] at hsr
          obtain ⟨t, -, rfl⟩ := List.mem_map.mp hsr
          cases hlo : ((cumprodSkip l₁ (lowerFactors Real.rpow ipc rem (M + 2)))[t]?).bind id with
          | none =>
            rw [hlo] at hmatch
            simp at hmatch
          | some lo =>
            cases hup : ((cumprodSkip u₁ (upperFactors Real.rpow ipc rem (M + 2)))[t]?).bind id with
            | none =>
              rw [hlo, hup] at hmatch
              simp at hmatch
            | some up =>
              rw [hlo, hup] at hmatch
              simp only [Option.some.injEq] at hmatch
              rw [← hmatch]
              show lo ≤ up
              have hlo' := hlo
              rw [cumprodSkip_getElem?, option_bind_map] at hlo'
              have hup' := hup
              rw [cumprodSkip_getElem?, option_bind_map] at hup'
              cases hfd : ((lowerFactors Real.rpow ipc rem (M + 2))[t]?).bind id with
              | none =>
                rw [hfd] at hlo'
                exact absurd hlo' (by simp)
              | some w =>
                rw [hfd] at hlo'
                cases hfu : ((upperFactors Real.rpow ipc rem (M + 2))[t]?).bind id with
                | none =>
                  rw [hfu] at hup'
                  exact absurd hup' (by simp)
                | some w' =>
                  rw [hfu] at hup'
                  simp only [Option.map_some', Option.some.injEq] at hlo' hup'
                  rw [← hlo', ← hup']
                  have hprod_le : skipProd (lowerFactors Real.rpow ipc rem (M + 2)) t ≤
                      skipProd (upperFactors Real.rpow ipc rem (M + 2)) t := by
                    apply Finset.prod_le_prod
                    · intro i _
                      exact (factors_nonneg_le ipc rem (M + 2) hrates i).1
                    · intro i _
                      exact (factors_nonneg_le ipc rem (M + 2) hrates i).2
                  have hprod_0 : 0 ≤ skipProd (lowerFactors Real.rpow ipc rem (M + 2)) t :=
                    Finset.prod_nonneg
                      (fun i _ => (factors_nonneg_le ipc rem (M + 2) hrates i).1)
                  exact mul_le_mul hlu hprod_le hprod_0 (le_trans hl0 hlu)

theorem C7_invariant_amended_witness :
    ((∀ r ∈ [((261 : ℤ), (1 : ℝ), (2 : ℝ))], r.2.1 ≤ r.2.2) ∧
      List.find? (fun r => r.1 == day20251231) [((261 : ℤ), (1 : ℝ), (2 : ℝ))] =
        some (day20251231, 1, 2) ∧
      ((0 : ℝ) ≤ 1 ∧ (1 : ℝ) ≤ 2) ∧
      (∀ p v, resolveRate ([] : List (ℕ × ℝ)) [(24310, (2 : ℝ))] p = some v →
        0 ≤ v ∧ v < 1) ∧
      build_bands_2026 Real.rpow [((261 : ℤ), (1 : ℝ), (2 : ℝ))]
        [(24310, (2 : ℝ))] [] = .ok c7wRows) ∧
    ∀ r ∈ bands [((261 : ℤ), (1 : ℝ), (2 : ℝ))] c7wRows, r.2.1 ≤ r.2.2 := by
  have hp1 : ∀ r ∈ [((261 : ℤ), (1 : ℝ), (2 : ℝ))], r.2.1 ≤ r.2.2 := by
    intro r hr
    rcases List.mem_singleton.mp hr with rfl
    norm_num
  have hrates : ∀ p v, resolveRate ([] : List (ℕ × ℝ)) [(24310, (2 : ℝ))] p = some v →
      0 ≤ v ∧ v < 1 := by
    intro p v h
    by_cases hp : p = 24310
    · subst hp
      have hc : resolveRate ([] : List (ℕ × ℝ)) [(24310, (2 : ℝ))] 24310 =
          some (2 / 100) := rfl
      rw [hc] at h
      rw [← Option.some.inj h]
      norm_num
    · have hb : (p == 24310) = false := beq_eq_false_iff_ne.mpr hp
      have hc : resolveRate ([] : List (ℕ × ℝ)) [(24310, (2 : ℝ))] p = none := by
        simp [resolveRate, List.lookup, hb]
      rw [hc] at h
      exact absurd h (by simp)
  have hok : build_bands_2026 Real.rpow [((261 : ℤ), (1 : ℝ), (2 : ℝ))]
      [(24310, (2 : ℝ))] [] = .ok c7wRows := rfl
  exact ⟨⟨hp1, rfl, ⟨by norm_num, by norm_num⟩, hrates, hok⟩,
    C7_invariant_amended.2 [((261 : ℤ), (1 : ℝ), (2 : ℝ))] [(24310, (2 : ℝ))] []
      c7wRows 1 2 hp1 rfl (by norm_num) (by norm_num) hrates hok⟩

end BCRA
